import Mathlib

/-!
# Verification of the Firefly Studio desktop launcher

A shallow embedding, in Lean 4, of `studio-desktop/src-tauri/src/main.rs`:
a Tauri entry point that allocates a free port, locates and spawns a
backend ("sidecar") process, polls `/api/health` until ready, navigates
the webview to the local server, and kills the sidecar when the window
is destroyed.

The embedding models:
* `wait_for_health` — the readiness-polling loop, with the network
  abstracted as an environment function from attempt number to probe
  outcome, and time as accumulated milliseconds (each probe consumes an
  environment-given duration; each retry sleeps 500 ms).  The `while`
  loop is rendered with explicit fuel; since every iteration advances
  elapsed time by at least 500 ms, fuel `timeout / 500 + 1` provably
  suffices.
* `find_sidecar` / `sidecar_name` — two-tier path resolution, with
  filesystem existence and `current_exe` as environment parameters and
  paths as component lists; the `expect`/`unwrap` calls are modelled as
  an explicit `panicked` outcome.
* the `on_window_event` destroy handler — `take()` on the mutex slot
  followed by best-effort `kill`/`wait`, with the OS results as
  environment parameters whose values are discarded (the handler has no
  error channel).
* the background task — navigation guarded by window existence.
* the setup closure's three port-bearing artifacts (spawn arguments,
  health URL, navigation URL), built from a single allocated port with
  decimal rendering via `Nat.repr`, exactly as `format!` renders a
  `u16`.
-/

set_option autoImplicit false

namespace FireflyStudio

/-! ### Health poller: `wait_for_health` -/

/-- Outcome of one HTTP probe as seen by the loop: a response carrying a
status code, or a transport-level error (`reqwest` `Err`). -/
inductive ProbeResult where
  | ok (status : Nat)
  | err
deriving DecidableEq

/-- `reqwest::StatusCode::is_success`: the 2xx range. -/
def statusIsSuccess (s : Nat) : Bool := 200 ≤ s && s < 300

/-- Result of `wait_for_health`, structured by the three exit paths of the
Rust function: `Ok(())` after a 2xx probe (with the attempt count and the
elapsed milliseconds at return), the timeout `Err` (with the attempt count
and the elapsed milliseconds at loop exit), or the client-builder `Err`. -/
inductive HealthOutcome where
  | ready (attempts : Nat) (elapsedMs : Nat)
  | timedOut (attempts : Nat) (elapsedMs : Nat)
  | clientError (msg : String)
deriving DecidableEq

/-- The polling loop of `wait_for_health`:
`while start.elapsed() < timeout { attempt += 1; probe; 2xx → return Ok;
otherwise sleep 500 ms }`, then the timeout error.

`probes a` is the outcome the network delivers to attempt `a` (1-based),
`probeMs a` the milliseconds that attempt takes (≤ 2000 in the real
client, which is irrelevant to the claims).  `fuel` bounds the number of
remaining iterations; every iteration adds at least 500 ms of elapsed
time, so the fuel chosen in `wait_for_health` never runs out before the
deadline (the fuel-exhausted branch returns the same `timedOut` exit the
deadline check would). -/
def wfhLoop (probes : Nat → ProbeResult) (probeMs : Nat → Nat) (timeoutMs : Nat) :
    Nat → Nat → Nat → HealthOutcome
  | 0, elapsed, attempt => .timedOut attempt elapsed
  | fuel + 1, elapsed, attempt =>
    if elapsed < timeoutMs then
      match probes (attempt + 1) with
      | .ok s =>
        if statusIsSuccess s then
          .ready (attempt + 1) (elapsed + probeMs (attempt + 1))
        else
          wfhLoop probes probeMs timeoutMs fuel
            (elapsed + probeMs (attempt + 1) + 500) (attempt + 1)
      | .err =>
          wfhLoop probes probeMs timeoutMs fuel
            (elapsed + probeMs (attempt + 1) + 500) (attempt + 1)
    else .timedOut attempt elapsed

/-- `wait_for_health`: build the HTTP client (environment-given outcome;
on failure return the descriptive error immediately), then run the
polling loop from elapsed 0, attempt 0. -/
def wait_for_health (clientBuild : Except String Unit) (probes : Nat → ProbeResult)
    (probeMs : Nat → Nat) (timeoutMs : Nat) : HealthOutcome :=
  match clientBuild with
  | .error e => .clientError ("Failed to create HTTP client: " ++ e)
  | .ok _ => wfhLoop probes probeMs timeoutMs (timeoutMs / 500 + 1) 0 0




/-! ### Sidecar locator: `sidecar_name` and `find_sidecar` -/

/-- Platform-specific sidecar binary name (`cfg!(target_os = "windows")`
is an environment parameter). -/
def sidecar_name (isWindows : Bool) : String :=
  if isWindows then "firefly-studio.exe" else "firefly-studio"

/-- A filesystem path as its list of components; `PathBuf::join` appends
a component. -/
abbrev FsPath := List String

/-- Result of sidecar resolution: either a path, or a process abort via
`expect`/`unwrap` (Rust panic) with the panic's message. -/
inductive FindResult where
  | found (p : FsPath)
  | panicked (msg : String)
deriving DecidableEq

/-- The fallback tier of `find_sidecar`:
`std::env::current_exe().expect("Failed to get executable path").parent().unwrap()`
joined with the platform name.  `currentExe` is the environment's answer
to `current_exe()` (`none` = `Err`); a path without a parent component
makes `parent()` return `None` and `unwrap()` panic. -/
def fallback_sidecar (isWindows : Bool) (currentExe : Option FsPath) : FindResult :=
  match currentExe with
  | none => .panicked "Failed to get executable path"
  | some exe =>
    match exe with
    | [] => .panicked "called `Option::unwrap()` on a `None` value"
    | e :: es => .found ((e :: es).dropLast ++ [sidecar_name isWindows])

/-- `find_sidecar`: try `<resource_dir>/sidecar/<name>` when the resource
directory resolves (`resourceDir`, `none` = `Err`) and that path exists
(`fsExists`, the environment's filesystem); otherwise fall back to the
executable's directory, without any existence check. -/
def find_sidecar (isWindows : Bool) (resourceDir : Option FsPath)
    (fsExists : FsPath → Bool) (currentExe : Option FsPath) : FindResult :=
  match resourceDir with
  | some rd =>
    let sidecar := rd ++ ["sidecar", sidecar_name isWindows]
    if fsExists sidecar then .found sidecar
    else fallback_sidecar isWindows currentExe
  | none => fallback_sidecar isWindows currentExe




/-! ### Process supervisor: the window-destroy handler -/

/-- The supervised child process (`std::process::Child`); only its pid is
observable to this launcher. -/
structure Child where
  id : Nat
deriving DecidableEq

/-- An OS interaction performed by the destroy handler, with the result
the OS returned (`Except.error` = `io::Result::Err`).  The handler
discards these results (`let _ = ...`), so they appear only as recorded
trace data. -/
inductive SupAction where
  | kill (pid : Nat) (res : Except String Unit)
  | wait (pid : Nat) (res : Except String Unit)

/-- The window event delivered to `on_window_event`. -/
inductive WindowEvent where
  | destroyed
  | other
deriving DecidableEq

/-- The `on_window_event` handler: on `Destroyed`, `take()` the handle
out of the mutex slot, and if one was present, `kill` then `wait` the
child, ignoring both results.  Returns the new slot contents and the
ordered trace of OS calls made before the handler returned; the handler
has no error channel (the closure returns `()`). -/
def on_window_event (ev : WindowEvent) (slot : Option Child)
    (killRes waitRes : Except String Unit) : Option Child × List SupAction :=
  match ev with
  | .destroyed =>
    match slot with
    | some c => (none, [.kill c.id killRes, .wait c.id waitRes])
    | none => (none, [])
  | .other => (slot, [])

/-! ### Window controller: the background task after polling resolves -/

/-- A navigation performed by the background task, with the discarded
result of `window.navigate` (`let _ = ...`). -/
inductive NavAction where
  | navigate (url : String) (res : Except String Unit)

/-- The navigation URL built in the background task:
`format!("http://127.0.0.1:{port}")`. -/
def nav_url (port : Nat) : String := "http://127.0.0.1:" ++ Nat.repr port

/-- The background task spawned by setup, after `wait_for_health`
resolves: on `Ok(())` it checks `get_webview_window("main")` (`window`,
`none` = window already destroyed) and navigates only when the window
exists; on an `Err` it only logs.  Returns the trace of navigations; the
task has no error channel. -/
def background_task (outcome : HealthOutcome) (window : Option Unit)
    (port : Nat) (navRes : Except String Unit) : List NavAction :=
  match outcome with
  | .ready _ _ =>
    match window with
    | some _ => [.navigate (nav_url port) navRes]
    | none => []
  | .timedOut _ _ => []
  | .clientError _ => []

/-! ### Setup: the three port-bearing artifacts -/

/-- The health-check URL built by `wait_for_health`:
`format!("http://127.0.0.1:{port}/api/health")`. -/
def health_url (port : Nat) : String :=
  "http://127.0.0.1:" ++ Nat.repr port ++ "/api/health"

/-- The spawn arguments of the sidecar `Command`:
`["--port", &port.to_string(), "--host", "127.0.0.1", "--no-browser"]`. -/
def spawn_args (port : Nat) : List String :=
  ["--port", Nat.repr port, "--host", "127.0.0.1", "--no-browser"]

/-- The three places the allocated port flows to in the setup closure. -/
structure SetupArtifacts where
  spawnArgs : List String
  healthUrl : String
  navUrl : String
deriving DecidableEq

/-- The setup closure's data flow: `find_free_port()` is called once and
its result `port` is threaded, unmodified, into the spawn arguments, the
health URL of the spawned poller, and the navigation URL. -/
def setup_artifacts (freePort : Nat) : SetupArtifacts :=
  let port := freePort
  { spawnArgs := spawn_args port
    healthUrl := health_url port
    navUrl := nav_url port }

/-! ### Port extraction (verification tooling, not from the source)

To state that the spawn arguments, health URL and navigation URL carry
the identical port, we recover the port from each artifact: parse the
decimal digits after `--port` resp. after the `http://127.0.0.1:`
prefix.  Correctness rests on a round-trip proof for `Nat.repr`'s
decimal rendering (`Nat.toDigitsCore`). -/

/-- Numeric value of a decimal digit character. -/
def charVal (c : Char) : Nat := c.toNat - 48

/-- Read a decimal digit list as a number (most significant first). -/
def readNat (cs : List Char) : Nat := cs.foldl (fun a c => a * 10 + charVal c) 0

/-- Parse a nonempty all-digit character list; `none` otherwise. -/
def parseNat (cs : List Char) : Option Nat :=
  if cs ≠ [] ∧ cs.all Char.isDigit = true then some (readNat cs) else none

/-- Strip an expected prefix from a character list. -/
def stripPre : List Char → List Char → Option (List Char)
  | [], cs => some cs
  | _ :: _, [] => none
  | p :: ps, c :: cs => if p = c then stripPre ps cs else none

/-- The port encoded in a `http://127.0.0.1:<port>...` URL. -/
def url_port (u : String) : Option Nat :=
  match stripPre "http://127.0.0.1:".data u.data with
  | some rest => parseNat (rest.takeWhile Char.isDigit)
  | none => none

/-- The port encoded in a sidecar argument list: the value following
`--port`. -/
def args_port : List String → Option Nat
  | "--port" :: v :: _ => parseNat v.data
  | _ => none


/-- The decimal digit characters of `n`, most significant first: the
fuel-free specification of `Nat.toDigitsCore 10`. -/
def natChars (n : Nat) : List Char :=
  if h : n < 10 then [Nat.digitChar n]
  else natChars (n / 10) ++ [Nat.digitChar (n % 10)]
termination_by n
decreasing_by omega

theorem charVal_digitChar : ∀ d, d < 10 → charVal (Nat.digitChar d) = d := by decide

theorem isDigit_digitChar : ∀ d, d < 10 → (Nat.digitChar d).isDigit = true := by decide

theorem natChars_ne_nil (n : Nat) : natChars n ≠ [] := by
  rw [natChars]
  split <;> simp

theorem natChars_all_digit (n : Nat) : ∀ c ∈ natChars n, c.isDigit = true := by
  induction n using Nat.strong_induction_on with
  | _ n ih =>
    rw [natChars]
    split
    · next h =>
      intro c hc
      rw [List.mem_singleton] at hc
      exact hc ▸ isDigit_digitChar n h
    · next h =>
      intro c hc
      rcases List.mem_append.mp hc with h1 | h2
      · exact ih (n / 10) (by omega) c h1
      · rw [List.mem_singleton] at h2
        exact h2 ▸ isDigit_digitChar (n % 10) (by omega)

theorem foldl_natChars (n : Nat) :
    ∀ a, (natChars n).foldl (fun a c => a * 10 + charVal c) a =
      a * 10 ^ (natChars n).length + n := by
  induction n using Nat.strong_induction_on with
  | _ n ih =>
    intro a
    rw [natChars]
    split
    · next h =>
      simp [charVal_digitChar n h]
    · next h =>
      rw [List.foldl_append, List.length_append, ih (n / 10) (by omega) a]
      simp only [List.foldl_cons, List.foldl_nil, List.length_singleton]
      rw [charVal_digitChar (n % 10) (by omega), pow_succ]
      calc (a * 10 ^ (natChars (n / 10)).length + n / 10) * 10 + n % 10
          = a * (10 ^ (natChars (n / 10)).length * 10) + (n / 10 * 10 + n % 10) := by
            ring
        _ = a * (10 ^ (natChars (n / 10)).length * 10) + n := by
            rw [Nat.div_add_mod']

theorem readNat_natChars (n : Nat) : readNat (natChars n) = n := by
  have h := foldl_natChars n 0
  simpa [readNat] using h

theorem parseNat_natChars (n : Nat) : parseNat (natChars n) = some n := by
  rw [parseNat, if_pos, readNat_natChars]
  exact ⟨natChars_ne_nil n, List.all_eq_true.mpr (natChars_all_digit n)⟩

theorem toDigitsCore_eq_natChars (n : Nat) : ∀ fuel l, n < fuel →
    Nat.toDigitsCore 10 fuel n l = natChars n ++ l := by
  induction n using Nat.strong_induction_on with
  | _ n ih =>
    intro fuel l hfl
    obtain ⟨f, rfl⟩ : ∃ f, fuel = f + 1 := ⟨fuel - 1, by omega⟩
    rw [Nat.toDigitsCore]
    by_cases h : n / 10 = 0
    · rw [if_pos h, natChars, dif_pos (by omega)]
      have hm : n % 10 = n := Nat.mod_eq_of_lt (by omega)
      rw [hm, List.singleton_append]
    · rw [if_neg h, ih (n / 10) (by omega) f (Nat.digitChar (n % 10) :: l) (by omega)]
      conv_rhs => rw [natChars]
      rw [dif_neg (show ¬n < 10 by omega), List.append_assoc, List.singleton_append]

theorem repr_data (n : Nat) : (Nat.repr n).data = natChars n := by
  rw [Nat.repr, Nat.toDigits, toDigitsCore_eq_natChars n (n + 1) [] (by omega)]
  simp [List.asString]

theorem stripPre_append (ps cs : List Char) : stripPre ps (ps ++ cs) = some cs := by
  induction ps with
  | nil => rfl
  | cons p ps ih => simpa [stripPre] using ih

theorem takeWhile_all_eq {q : Char → Bool} :
    ∀ xs : List Char, (∀ c ∈ xs, q c = true) → xs.takeWhile q = xs := by
  intro xs h
  induction xs with
  | nil => rfl
  | cons x xs ih =>
    simp [h x (List.mem_cons_self x xs), ih fun c hc => h c (List.mem_cons_of_mem x hc)]

theorem takeWhile_append_stop {q : Char → Bool} :
    ∀ (xs : List Char) (y : Char) (ys : List Char), (∀ c ∈ xs, q c = true) →
      q y = false → (xs ++ y :: ys).takeWhile q = xs := by
  intro xs y ys h hy
  induction xs with
  | nil => simp [List.takeWhile_cons, hy]
  | cons x xs ih =>
    rw [List.cons_append]
    simp [h x (List.mem_cons_self x xs), ih fun c hc => h c (List.mem_cons_of_mem x hc)]

theorem args_port_spawn_args (p : Nat) : args_port (spawn_args p) = some p := by
  rw [spawn_args]
  show parseNat (Nat.repr p).data = some p
  rw [repr_data]
  exact parseNat_natChars p

theorem url_port_health_url (p : Nat) : url_port (health_url p) = some p := by
  rw [url_port, health_url, String.data_append, String.data_append, repr_data,
    List.append_assoc, stripPre_append]
  show parseNat ((natChars p ++ "/api/health".data).takeWhile Char.isDigit) = some p
  have hd : "/api/health".data = '/' :: "api/health".data := rfl
  rw [hd, takeWhile_append_stop (natChars p) '/' "api/health".data
    (natChars_all_digit p) (by decide)]
  exact parseNat_natChars p

theorem url_port_nav_url (p : Nat) : url_port (nav_url p) = some p := by
  rw [url_port, nav_url, String.data_append, repr_data, stripPre_append]
  show parseNat ((natChars p).takeWhile Char.isDigit) = some p
  rw [takeWhile_all_eq (natChars p) (natChars_all_digit p)]
  exact parseNat_natChars p

/-! ### Loop lemmas for the health poller -/

/-- A `ready` outcome names an attempt whose probe returned a 2xx
response. -/
theorem wfhLoop_ready_probe (probes : Nat → ProbeResult) (pm : Nat → Nat) (t : Nat) :
    ∀ fuel elapsed attempt a e,
      wfhLoop probes pm t fuel elapsed attempt = .ready a e →
      ∃ s, probes a = .ok s ∧ statusIsSuccess s = true := by
  intro fuel
  induction fuel with
  | zero =>
    intro elapsed attempt a e h
    simp [wfhLoop] at h
  | succ f ih =>
    intro elapsed attempt a e h
    by_cases he : elapsed < t
    · cases hpr : probes (attempt + 1) with
      | ok s =>
        cases hs : statusIsSuccess s with
        | false =>
          simp only [wfhLoop, he, if_true, hpr, hs, if_false, Bool.false_eq_true] at h
          exact ih _ _ _ _ h
        | true =>
          simp only [wfhLoop, he, if_true, hpr, hs, if_false] at h
          simp only [HealthOutcome.ready.injEq] at h
          obtain ⟨rfl, rfl⟩ := h
          exact ⟨s, hpr, hs⟩
      | err =>
        simp only [wfhLoop, he, if_true, hpr] at h
        exact ih _ _ _ _ h
    · simp [wfhLoop, he] at h

/-- A `timedOut` outcome means every probe the loop performed (attempts
strictly after the starting counter, up to the reported count) came back
non-2xx. -/
theorem wfhLoop_timedOut_no2xx (probes : Nat → ProbeResult) (pm : Nat → Nat) (t : Nat) :
    ∀ fuel elapsed attempt k e,
      wfhLoop probes pm t fuel elapsed attempt = .timedOut k e →
      ∀ i, attempt < i → i ≤ k → ∀ s, probes i = .ok s → statusIsSuccess s = false := by
  intro fuel
  induction fuel with
  | zero =>
    intro elapsed attempt k e h i hi1 hi2 s hpr
    simp only [wfhLoop, HealthOutcome.timedOut.injEq] at h
    obtain ⟨rfl, rfl⟩ := h
    omega
  | succ f ih =>
    intro elapsed attempt k e h i hi1 hi2 s hpr
    by_cases he : elapsed < t
    · cases hpr2 : probes (attempt + 1) with
      | ok s2 =>
        cases hs2 : statusIsSuccess s2 with
        | false =>
          simp only [wfhLoop, he, if_true, hpr2, hs2, Bool.false_eq_true, if_false] at h
          by_cases hieq : i = attempt + 1
          · subst hieq
            rw [hpr2] at hpr
            cases hpr
            exact hs2
          · exact ih _ _ _ _ h i (by omega) hi2 s hpr
        | true =>
          simp only [wfhLoop, he, if_true, hpr2, hs2, if_false] at h
          exact absurd h (by simp)
      | err =>
        simp only [wfhLoop, he, if_true, hpr2] at h
        by_cases hieq : i = attempt + 1
        · subst hieq
          rw [hpr2] at hpr
          exact absurd hpr (by simp)
        · exact ih _ _ _ _ h i (by omega) hi2 s hpr
    · simp only [wfhLoop, he, if_false, HealthOutcome.timedOut.injEq] at h
      obtain ⟨rfl, rfl⟩ := h
      omega

/-- One loop step on a 2xx probe: return `ready` at once, with no sleep
added to the elapsed time. -/
theorem wfhLoop_success_step (probes : Nat → ProbeResult) (pm : Nat → Nat)
    (t fuel elapsed attempt s : Nat) (he : elapsed < t)
    (hpr : probes (attempt + 1) = .ok s) (hs : statusIsSuccess s = true) :
    wfhLoop probes pm t (fuel + 1) elapsed attempt =
      .ready (attempt + 1) (elapsed + pm (attempt + 1)) := by
  simp [wfhLoop, he, hpr, hs]

/-- One loop step on a non-2xx response: no error, sleep 500 ms, retry. -/
theorem wfhLoop_non2xx_step (probes : Nat → ProbeResult) (pm : Nat → Nat)
    (t fuel elapsed attempt s : Nat) (he : elapsed < t)
    (hpr : probes (attempt + 1) = .ok s) (hs : statusIsSuccess s = false) :
    wfhLoop probes pm t (fuel + 1) elapsed attempt =
      wfhLoop probes pm t fuel (elapsed + pm (attempt + 1) + 500) (attempt + 1) := by
  simp [wfhLoop, he, hpr, hs]

/-- One loop step on a transport-level error: no error, sleep 500 ms,
retry. -/
theorem wfhLoop_err_step (probes : Nat → ProbeResult) (pm : Nat → Nat)
    (t fuel elapsed attempt : Nat) (he : elapsed < t)
    (hpr : probes (attempt + 1) = .err) :
    wfhLoop probes pm t (fuel + 1) elapsed attempt =
      wfhLoop probes pm t fuel (elapsed + pm (attempt + 1) + 500) (attempt + 1) := by
  simp [wfhLoop, he, hpr]

/-- The loop itself never produces the client-construction error. -/
theorem wfhLoop_ne_clientError (probes : Nat → ProbeResult) (pm : Nat → Nat) (t : Nat) :
    ∀ fuel elapsed attempt msg,
      wfhLoop probes pm t fuel elapsed attempt ≠ .clientError msg := by
  intro fuel
  induction fuel with
  | zero =>
    intro elapsed attempt msg h
    simp [wfhLoop] at h
  | succ f ih =>
    intro elapsed attempt msg h
    by_cases he : elapsed < t
    · cases hpr : probes (attempt + 1) with
      | ok s =>
        cases hs : statusIsSuccess s with
        | false =>
          simp only [wfhLoop, he, if_true, hpr, hs, Bool.false_eq_true, if_false] at h
          exact ih _ _ _ h
        | true =>
          simp only [wfhLoop, he, if_true, hpr, hs, if_false] at h
          exact absurd h (by simp)
      | err =>
        simp only [wfhLoop, he, if_true, hpr] at h
        exact ih _ _ _ h
    · simp [wfhLoop, he] at h

/-- With no 2xx probe anywhere, the loop — given enough fuel to cover the
deadline — exits with `timedOut`, at an elapsed time at least the
timeout.  Every iteration advances elapsed time by at least the 500 ms
sleep, which is what `t ≤ elapsed + 500 * fuel` exploits. -/
theorem wfhLoop_no2xx_timedOut (probes : Nat → ProbeResult) (pm : Nat → Nat) (t : Nat)
    (hp : ∀ n s, probes n = .ok s → statusIsSuccess s = false) :
    ∀ fuel elapsed attempt, t ≤ elapsed + 500 * fuel →
      ∃ k e, wfhLoop probes pm t fuel elapsed attempt = .timedOut k e ∧ t ≤ e := by
  intro fuel
  induction fuel with
  | zero =>
    intro elapsed attempt h
    exact ⟨attempt, elapsed, by simp [wfhLoop], by omega⟩
  | succ f ih =>
    intro elapsed attempt h
    by_cases he : elapsed < t
    · cases hpr : probes (attempt + 1) with
      | ok s =>
        rw [wfhLoop_non2xx_step probes pm t f elapsed attempt s he hpr (hp _ _ hpr)]
        exact ih _ _ (by omega)
      | err =>
        rw [wfhLoop_err_step probes pm t f elapsed attempt he hpr]
        exact ih _ _ (by omega)
    · exact ⟨attempt, elapsed, by simp [wfhLoop, he], by omega⟩

/-- The fallback tier resolves to the executable's directory joined with
the platform name, for any executable path that has a final component. -/
theorem fallback_sidecar_found (w : Bool) (exeDir : FsPath) (exeFile : String) :
    fallback_sidecar w (some (exeDir ++ [exeFile])) = .found (exeDir ++ [sidecar_name w]) := by
  cases exeDir with
  | nil => simp [fallback_sidecar]
  | cons x xs =>
    show FindResult.found ((x :: (xs ++ [exeFile])).dropLast ++ [sidecar_name w]) = _
    rw [← List.cons_append, List.dropLast_concat]

/-! ### The claims -/

/-- Claim C1: when the window-destroy event fires, the handler takes the
process handle out of the slot; a present handle is killed and then
waited on (reaping the child) before the handler completes, and the
handler's outcome is the same for every kill/wait result the OS returns
— failures are silently ignored and cannot propagate (the handler has no
error channel). -/
theorem destroy_handler_kills_and_reaps (c : Child) (killRes waitRes : Except String Unit) :
    on_window_event .destroyed (some c) killRes waitRes =
      (none, [.kill c.id killRes, .wait c.id waitRes]) := rfl

/-- Claim C5: terminate is idempotent — one invocation of the destroy
handler's terminate logic leaves the slot empty, and a second invocation
on the now-empty slot performs no kill attempt, produces no error, and
leaves the slot empty. -/
theorem destroy_handler_idempotent (c : Child) (kr wr kr2 wr2 : Except String Unit) :
    (on_window_event .destroyed (some c) kr wr).1 = none ∧
    on_window_event .destroyed (on_window_event .destroyed (some c) kr wr).1 kr2 wr2 =
      (none, []) :=
  ⟨rfl, rfl⟩

/-- Claim C8: a `Ready` resolving after the window is gone is a silent
no-op — the background task checks window existence first, attempts no
navigation, and raises no error; when the window does exist it navigates
to the backend's base URL. -/
theorem ready_navigation_defensive (a e port : Nat) (navRes : Except String Unit) :
    background_task (.ready a e) none port navRes = [] ∧
    background_task (.ready a e) (some ()) port navRes =
      [.navigate (nav_url port) navRes] :=
  ⟨rfl, rfl⟩

/-- Claim C4: in every run, the port recovered from the spawn arguments,
from the health-check URL, and from the navigation URL is the one port
allocated at setup — all three artifacts carry the identical value. -/
theorem setup_single_port (p : Nat) :
    args_port (setup_artifacts p).spawnArgs = some p ∧
    url_port (setup_artifacts p).healthUrl = some p ∧
    url_port (setup_artifacts p).navUrl = some p :=
  ⟨args_port_spawn_args p, url_port_health_url p, url_port_nav_url p⟩

/-- Claim C6: sidecar resolution is two-tiered — when the resource
directory is available and `<resource_dir>/sidecar/<name>` exists, that
exact path is returned; otherwise (resource path absent on disk, or no
resource directory) it returns `<exe_dir>/<name>`, for an arbitrary
filesystem, i.e. without checking that the fallback path exists. -/
theorem find_sidecar_two_tier :
    (∀ (w : Bool) (rd : FsPath) (fsE : FsPath → Bool) (exe : Option FsPath),
      fsE (rd ++ ["sidecar", sidecar_name w]) = true →
      find_sidecar w (some rd) fsE exe = .found (rd ++ ["sidecar", sidecar_name w]))
    ∧ (∀ (w : Bool) (rd : FsPath) (fsE : FsPath → Bool) (exeDir : FsPath) (exeFile : String),
      fsE (rd ++ ["sidecar", sidecar_name w]) = false →
      find_sidecar w (some rd) fsE (some (exeDir ++ [exeFile])) =
        .found (exeDir ++ [sidecar_name w]))
    ∧ (∀ (w : Bool) (fsE : FsPath → Bool) (exeDir : FsPath) (exeFile : String),
      find_sidecar w none fsE (some (exeDir ++ [exeFile])) =
        .found (exeDir ++ [sidecar_name w])) := by
  refine ⟨fun w rd fsE exe h => ?_, fun w rd fsE exeDir exeFile h => ?_,
    fun w fsE exeDir exeFile => ?_⟩
  · simp [find_sidecar, h]
  · simp [find_sidecar, h, fallback_sidecar_found]
  · simp [find_sidecar, fallback_sidecar_found]

/-- Witness for C6 at concrete inputs: a filesystem where the packaged
path exists (tier 1), one where it does not (tier 2 with a resource
directory), and a run with no resource directory at all. -/
theorem find_sidecar_two_tier_witness :
    ((fun p => p == (["res", "sidecar", "firefly-studio"] : FsPath))
        (["res"] ++ ["sidecar", sidecar_name false]) = true) ∧
    find_sidecar false (some ["res"])
        (fun p => p == (["res", "sidecar", "firefly-studio"] : FsPath))
        (some (["dir"] ++ ["app"])) =
      .found (["res"] ++ ["sidecar", sidecar_name false]) ∧
    ((fun _ : FsPath => false) (["res"] ++ ["sidecar", sidecar_name false]) = false) ∧
    find_sidecar false (some ["res"]) (fun _ => false) (some (["dir"] ++ ["app"])) =
      .found (["dir"] ++ [sidecar_name false]) ∧
    find_sidecar true none (fun _ => false) (some (["usr", "bin"] ++ ["app"])) =
      .found (["usr", "bin"] ++ [sidecar_name true]) :=
  ⟨by decide,
   find_sidecar_two_tier.1 false ["res"] _ _ (by decide),
   rfl,
   find_sidecar_two_tier.2.1 false ["res"] _ ["dir"] "app" rfl,
   find_sidecar_two_tier.2.2 true _ ["usr", "bin"] "app"⟩

/-- Claim C10: on the fallback tier, failing to obtain the executable
path (or getting a path with no parent component) aborts via panic — an
exit distinct from returning a found path. -/
theorem find_sidecar_fallback_panics :
    (∀ (w : Bool) (fsE : FsPath → Bool),
      find_sidecar w none fsE none = .panicked "Failed to get executable path")
    ∧ (∀ (w : Bool) (rd : FsPath) (fsE : FsPath → Bool),
      fsE (rd ++ ["sidecar", sidecar_name w]) = false →
      find_sidecar w (some rd) fsE none = .panicked "Failed to get executable path")
    ∧ (∀ (w : Bool) (fsE : FsPath → Bool),
      find_sidecar w none fsE (some []) =
        .panicked "called `Option::unwrap()` on a `None` value")
    ∧ (∀ (p : FsPath) (msg : String), FindResult.panicked msg ≠ .found p) := by
  refine ⟨fun w fsE => rfl, fun w rd fsE h => ?_, fun w fsE => rfl,
    fun p msg h => nomatch h⟩
  simp [find_sidecar, h, fallback_sidecar]

/-- Witness for C10: the panic outcomes at concrete inputs. -/
theorem find_sidecar_fallback_panics_witness :
    ((fun _ : FsPath => false) (["res"] ++ ["sidecar", sidecar_name true]) = false) ∧
    find_sidecar true (some ["res"]) (fun _ => false) none =
      .panicked "Failed to get executable path" ∧
    find_sidecar false none (fun _ => true) (some []) =
      .panicked "called `Option::unwrap()` on a `None` value" ∧
    FindResult.panicked "Failed to get executable path" ≠ .found ["dir", "app"] :=
  ⟨rfl,
   find_sidecar_fallback_panics.2.1 true ["res"] _ rfl,
   find_sidecar_fallback_panics.2.2.1 false _,
   find_sidecar_fallback_panics.2.2.2 ["dir", "app"] "Failed to get executable path"⟩

/-- Claim C9: if constructing the HTTP client fails, `wait_for_health`
returns that error immediately — for every probe environment and every
timeout, hence before any probe and any sleep — and the outcome is
distinct from `timedOut`. -/
theorem client_build_failure_immediate (e : String) (probes : Nat → ProbeResult)
    (pm : Nat → Nat) (t : Nat) :
    wait_for_health (.error e) probes pm t =
      .clientError ("Failed to create HTTP client: " ++ e) ∧
    ∀ k el, HealthOutcome.clientError ("Failed to create HTTP client: " ++ e) ≠
      .timedOut k el :=
  ⟨rfl, fun _ _ h => nomatch h⟩

/-- Witness for C9: a concrete client-construction failure, returned
unchanged for a probe environment that would answer 200, and distinct
from a concrete `timedOut`. -/
theorem client_build_failure_immediate_witness :
    wait_for_health (.error "boom") (fun _ => .ok 200) (fun _ => 0) 30000 =
      .clientError ("Failed to create HTTP client: " ++ "boom") ∧
    HealthOutcome.clientError ("Failed to create HTTP client: " ++ "boom") ≠
      .timedOut 61 30500 :=
  ⟨(client_build_failure_immediate "boom" (fun _ => .ok 200) (fun _ => 0) 30000).1,
   (client_build_failure_immediate "boom" (fun _ => .ok 200) (fun _ => 0) 30000).2 61 30500⟩

/-- Claim C3: when no probe ever returns 2xx, polling exits with
`timedOut` — never `ready` — carrying the attempt count, and the elapsed
time at exit is at least the timeout. -/
theorem no_success_times_out (probes : Nat → ProbeResult) (pm : Nat → Nat) (t : Nat)
    (hp : ∀ n s, probes n = .ok s → statusIsSuccess s = false) :
    ∃ k e, wait_for_health (.ok ()) probes pm t = .timedOut k e ∧ t ≤ e :=
  wfhLoop_no2xx_timedOut probes pm t hp (t / 500 + 1) 0 0 (by omega)

/-- Witness for C3: a backend that always refuses the connection times
out. -/
theorem no_success_times_out_witness :
    (∀ (n s : Nat), (fun _ : Nat => ProbeResult.err) n = ProbeResult.ok s →
      statusIsSuccess s = false) ∧
    ∃ k e, wait_for_health (.ok ()) (fun _ => .err) (fun _ => 0) 1000 = .timedOut k e ∧
      1000 ≤ e :=
  ⟨(fun _ _ h => nomatch h),
   no_success_times_out (fun _ => .err) (fun _ => 0) 1000 (fun _ _ h => nomatch h)⟩

/-- Claim C2: `ready` is declared exactly on a 2xx probe — a `ready`
outcome names an attempt whose probe returned 2xx, a `timedOut` outcome
means no performed probe returned 2xx, a 2xx probe yields `ready` at
that attempt with no 500 ms sleep added, and a 2xx on the very first
probe yields `ready` after one attempt with only the probe's own
duration elapsed. -/
theorem ready_iff_probe_2xx :
    (∀ (probes : Nat → ProbeResult) (pm : Nat → Nat) (t fuel elapsed attempt a e : Nat),
      wfhLoop probes pm t fuel elapsed attempt = .ready a e →
      ∃ s, probes a = .ok s ∧ statusIsSuccess s = true)
    ∧ (∀ (probes : Nat → ProbeResult) (pm : Nat → Nat) (t fuel elapsed attempt k e : Nat),
      wfhLoop probes pm t fuel elapsed attempt = .timedOut k e →
      ∀ i, attempt < i → i ≤ k → ∀ s, probes i = .ok s → statusIsSuccess s = false)
    ∧ (∀ (probes : Nat → ProbeResult) (pm : Nat → Nat) (t fuel elapsed attempt s : Nat),
      elapsed < t → probes (attempt + 1) = .ok s → statusIsSuccess s = true →
      wfhLoop probes pm t (fuel + 1) elapsed attempt =
        .ready (attempt + 1) (elapsed + pm (attempt + 1)))
    ∧ (∀ (probes : Nat → ProbeResult) (pm : Nat → Nat) (t s : Nat),
      0 < t → probes 1 = .ok s → statusIsSuccess s = true →
      wait_for_health (.ok ()) probes pm t = .ready 1 (pm 1)) := by
  refine ⟨wfhLoop_ready_probe, wfhLoop_timedOut_no2xx,
    fun probes pm t fuel elapsed attempt s he hpr hs =>
      wfhLoop_success_step probes pm t fuel elapsed attempt s he hpr hs,
    fun probes pm t s ht hpr hs => ?_⟩
  have h := wfhLoop_success_step probes pm t (t / 500) 0 0 s ht hpr hs
  simpa [wait_for_health] using h

/-- Witness for C2: a backend answering 200 on the first probe is ready
after one attempt with no sleep; a 503-only backend times out with every
performed probe non-2xx. -/
theorem ready_iff_probe_2xx_witness :
    ((fun _ : Nat => ProbeResult.ok 200) 1 = ProbeResult.ok 200) ∧
    statusIsSuccess 200 = true ∧ (0 : Nat) < 30000 ∧
    wait_for_health (.ok ()) (fun _ => .ok 200) (fun _ => 7) 30000 = .ready 1 7 ∧
    (∃ s, (fun _ : Nat => ProbeResult.ok 200) 1 = ProbeResult.ok s ∧
      statusIsSuccess s = true) ∧
    statusIsSuccess 503 = false :=
  ⟨rfl, rfl, by decide,
   ready_iff_probe_2xx.2.2.2 (fun _ => .ok 200) (fun _ => 7) 30000 200 (by decide) rfl rfl,
   ready_iff_probe_2xx.1 (fun _ => .ok 200) (fun _ => 7) 30000 61 0 0 1 7 (by decide),
   ready_iff_probe_2xx.2.1 (fun _ => .ok 503) (fun _ => 0) 1000 3 0 0 2 1000 (by decide)
     1 (by decide) (by decide) 503 rfl⟩

/-- Claim C7: inside the loop, a non-2xx response or a transport error
never produces an error — the loop sleeps 500 ms and retries — and no
loop outcome is ever the client-construction error; `timedOut` is the
only failure the loop can report. -/
theorem transient_errors_retry :
    (∀ (probes : Nat → ProbeResult) (pm : Nat → Nat) (t fuel elapsed attempt s : Nat),
      elapsed < t → probes (attempt + 1) = .ok s → statusIsSuccess s = false →
      wfhLoop probes pm t (fuel + 1) elapsed attempt =
        wfhLoop probes pm t fuel (elapsed + pm (attempt + 1) + 500) (attempt + 1))
    ∧ (∀ (probes : Nat → ProbeResult) (pm : Nat → Nat) (t fuel elapsed attempt : Nat),
      elapsed < t → probes (attempt + 1) = .err →
      wfhLoop probes pm t (fuel + 1) elapsed attempt =
        wfhLoop probes pm t fuel (elapsed + pm (attempt + 1) + 500) (attempt + 1))
    ∧ (∀ (probes : Nat → ProbeResult) (pm : Nat → Nat) (t fuel elapsed attempt : Nat)
        (msg : String),
      wfhLoop probes pm t fuel elapsed attempt ≠ .clientError msg) :=
  ⟨fun probes pm t fuel elapsed attempt s he hpr hs =>
      wfhLoop_non2xx_step probes pm t fuel elapsed attempt s he hpr hs,
   fun probes pm t fuel elapsed attempt he hpr =>
      wfhLoop_err_step probes pm t fuel elapsed attempt he hpr,
   fun probes pm t fuel elapsed attempt msg =>
      wfhLoop_ne_clientError probes pm t fuel elapsed attempt msg⟩

/-- Witness for C7: a 503 response and a refused connection each lead to
a retry step, at concrete inputs. -/
theorem transient_errors_retry_witness :
    ((0 : Nat) < 1000) ∧
    ((fun _ : Nat => ProbeResult.ok 503) 1 = ProbeResult.ok 503) ∧
    statusIsSuccess 503 = false ∧
    wfhLoop (fun _ => .ok 503) (fun _ => 0) 1000 3 0 0 =
      wfhLoop (fun _ => .ok 503) (fun _ => 0) 1000 2 500 1 ∧
    wfhLoop (fun _ => .err) (fun _ => 0) 1000 3 0 0 =
      wfhLoop (fun _ => .err) (fun _ => 0) 1000 2 500 1 ∧
    wfhLoop (fun _ => .err) (fun _ => 0) 1000 3 0 0 ≠ .clientError "boom" :=
  ⟨by decide, rfl, rfl,
   transient_errors_retry.1 (fun _ => .ok 503) (fun _ => 0) 1000 2 0 0 503
     (by decide) rfl rfl,
   transient_errors_retry.2.1 (fun _ => .err) (fun _ => 0) 1000 2 0 0 (by decide) rfl,
   transient_errors_retry.2.2 (fun _ => .err) (fun _ => 0) 1000 3 0 0 "boom"⟩

end FireflyStudio
